import Mathlib

/-!
Verification development for the ADB GUI assistant repository
(file src/python版/main.py).  The definitions below are a shallow
embedding of the in-scope components of the program: the listing-name
unescaper (unescape_ls_filename), the one-shot invoker
(AdbHelper.execute_command / connect_device and the WiFi connect
handler), and the persistent shell session manager (PersistentShell
with execute_sync, execute_async, get_async_output_line, close and
its background reader thread).  External process behaviour is passed
in as explicit environment data; machine state of the session is an
explicit record and the concurrent parts are a labelled transition
system over that record.
-/

/-! ## ListingParser: unescape_ls_filename

Python source (src/python版/main.py, lines 108-117):
the function returns an empty name unchanged, remembers whether the
name ends in a slash, removes all trailing slashes, replaces every
escaped space (backslash space) by a plain space, and reattaches a
single slash when the original name ended in one.
Strings are modelled as lists of characters. -/

/-- One pass of the Python replace of a backslash-space pair by a space:
left to right, non-overlapping occurrences. -/
def replaceEscSpace : List Char → List Char
  | [] => []
  | [c] => [c]
  | c1 :: c2 :: rest =>
    if c1 = '\\' ∧ c2 = ' ' then ' ' :: replaceEscSpace rest
    else c1 :: replaceEscSpace (c2 :: rest)

/-- Python rstrip of the slash character: drop every trailing slash. -/
def rstripSlash (l : List Char) : List Char :=
  (l.reverse.dropWhile (fun c => c == '/')).reverse

/-- Python endswith of a single slash. -/
def endsWithSlash (l : List Char) : Bool :=
  match l.getLast? with
  | some c => c == '/'
  | none => false

/-- Embedding of unescape_ls_filename. -/
def unescape_ls_filename (name : List Char) : List Char :=
  if name = [] then name
  else
    let is_dir := endsWithSlash name
    let raw := rstripSlash name
    let unescaped := replaceEscSpace raw
    if is_dir then unescaped ++ ['/'] else unescaped

/-! ## Output queue

The session owns a queue.Queue of output lines; the reader thread
appends with put, the consumer pops with get_nowait which returns
no value on an empty queue instead of blocking. -/

/-- queue.Queue.put: append one line at the back. -/
def queue_put (q : List String) (line : String) : List String :=
  q ++ [line]

/-- queue.Queue.get_nowait wrapped by get_async_output_line:
pop the front line, or return none when the queue is empty. -/
def queue_get_nowait (q : List String) : Option String × List String :=
  match q with
  | [] => (none, [])
  | x :: r => (some x, r)

/-! ## ExternalToolInvoker: AdbHelper.execute_command

Python source lines 51-71.  The function builds the full adb argument
vector (the adb name, an optional target-selector pair, then the
command given either as one string or as a list), runs it capturing
both streams as text WITHOUT any timeout argument, and returns
(stdout, stderr, returncode); a missing adb binary is caught and
returned as a fixed message with return code -1.  The behaviour of
the spawned call is environment data: how long the call takes, what
it prints, its exit status, and whether the binary is present. -/

/-- Behaviour of one external adb call: its wall-clock duration, the
captured streams and exit status it would produce, and whether the
adb binary is present at all. -/
structure CallBehavior where
  duration : Nat
  stdout : String
  stderr : String
  returncode : Int
  binaryMissing : Bool
deriving DecidableEq

/-- The command argument of execute_command: a single string or a list
of strings, mirroring the isinstance branch of the Python code. -/
inductive CmdArg where
  | str (s : String)
  | list (l : List String)
deriving DecidableEq

/-- The full argument vector built by execute_command. -/
def full_adb_cmd (cmd : CmdArg) (device : Option String) : List String :=
  ["adb"]
    ++ (match device with
        | some d => ["-s", d]
        | none => [])
    ++ (match cmd with
        | .str s => [s]
        | .list l => l)

/-- The fixed message returned when the adb binary is absent. -/
def adb_missing_msg : String := "adb 未找到，请确保 adb 已安装并加入环境变量"

/-- Embedding of AdbHelper.execute_command.  subprocess.run is called
with no timeout, so the call completes regardless of its duration;
only a missing binary is intercepted. -/
def execute_command (env : List String → CallBehavior) (cmd : CmdArg)
    (device : Option String) : String × String × Int :=
  let b := env (full_adb_cmd cmd device)
  if b.binaryMissing then ("", adb_missing_msg, -1)
  else (b.stdout, b.stderr, b.returncode)

/-- Embedding of AdbHelper.connect_device (line 85-87). -/
def connect_device (env : List String → CallBehavior) (ip_port : String) :
    String × String × Int :=
  execute_command env (CmdArg.str ("connect " ++ ip_port)) none

/-! ## The WiFi connect handler (do_connect, lines 211-222) -/

/-- Does the needle occur at the head of the haystack. -/
def matchesAt : List Char → List Char → Bool
  | [], _ => true
  | _ :: _, [] => false
  | n :: ns, h :: hs => n == h && matchesAt ns hs

/-- Python substring membership: the needle occurs somewhere in the
haystack. -/
def containsSub (needle : List Char) : List Char → Bool
  | [] => needle.isEmpty
  | h :: hs => matchesAt needle (h :: hs) || containsSub needle hs

/-- Python str.lower over the characters of a string. -/
def lower_chars (s : String) : List Char :=
  s.data.map Char.toLower

/-- The connection-confirmation marker looked for in the connect
response text. -/
def connected_marker : List Char :=
  ['c', 'o', 'n', 'n', 'e', 'c', 't', 'e', 'd']

/-- Embedding of the do_connect handler: an empty address only warns
(no result); otherwise the network-connect command is issued and the
attempt is reported successful exactly when the exit status is zero
and the lower-cased response text contains the marker.  The message
mirrors the Python strings, including the stderr-or-stdout choice in
the failure branch. -/
def do_connect (env : List String → CallBehavior) (ip_port : String) :
    Option (Bool × String) :=
  if ip_port = "" then none
  else
    let r := connect_device env ip_port
    if r.2.2 == 0 && containsSub connected_marker (lower_chars r.1) then
      some (true, "连接成功: " ++ r.1)
    else
      some (false, "连接失败: " ++ (if r.2.1 = "" then r.1 else r.2.1))

/-! ## PersistentShell.execute_sync (lines 292-333)

Two-tier synchronous execution.  Tier 1 runs adb exec-out with the
given timeout; when it completes with exit status zero its
(stdout, stderr) pair is returned at once and tier 2 is never
invoked.  On a non-zero exit, a timeout, or any other invocation
error, the identical command string is reissued as adb shell with the
same timeout; a tier-2 timeout yields empty stdout and an explicit
timeout message, and any other tier-2 invocation error yields empty
stdout and the error text.  The outcome of each external call is
environment data keyed by the full argument vector and the timeout. -/

/-- Outcome of one subprocess.run call made with a timeout. -/
inductive RunOutcome where
  | completed (stdout stderr : String) (returncode : Int)
  | timedOut
  | failed (msg : String)
deriving DecidableEq

/-- The tier-1 argument vector: adb exec-out. -/
def exec_out_cmd (serial command : String) : List String :=
  ["adb", "-s", serial, "exec-out", command]

/-- The tier-2 argument vector: adb shell. -/
def shell_sync_cmd (serial command : String) : List String :=
  ["adb", "-s", serial, "shell", command]

/-- The timeout message produced when tier 2 itself times out. -/
def timeoutMsg (timeout : Nat) : String :=
  "命令执行超时（" ++ toString timeout ++ "秒）"

/-- The tier-2 attempt of execute_sync: run adb shell and translate
its outcome exactly as the Python code does. -/
def run_shell_tier (env : List String → Nat → RunOutcome)
    (serial command : String) (timeout : Nat) : String × String :=
  match env (shell_sync_cmd serial command) timeout with
  | .completed out err _rc => (out, err)
  | .timedOut => ("", timeoutMsg timeout)
  | .failed msg => ("", msg)

/-- Does the tier-1 outcome make execute_sync fall through to tier 2:
every outcome except completion with exit status zero. -/
def tier1_falls_through : RunOutcome → Bool
  | .completed _ _ rc => rc != 0
  | .timedOut => true
  | .failed _ => true

/-- Embedding of execute_sync.  The second component records whether
the tier-2 invocation path was used at all. -/
def execute_sync (env : List String → Nat → RunOutcome)
    (serial command : String) (timeout : Nat) :
    (String × String) × Bool :=
  match env (exec_out_cmd serial command) timeout with
  | .completed out err rc =>
    if rc = 0 then ((out, err), false)
    else (run_shell_tier env serial command timeout, true)
  | .timedOut => (run_shell_tier env serial command timeout, true)
  | .failed _ => (run_shell_tier env serial command timeout, true)

/-! ## PersistentShell: the interactive session (lines 239-363)

The session state is the fields of the Python object: the device
serial, the optional interactive subprocess handle, the output queue
and the liveness flag, plus one extra field recording whether the
background reader thread started by _poll_async_output is still
running.  A subprocess handle is identified by a pid and carries
whether the process has exited (poll() returning a value). -/

/-- An interactive subprocess handle. -/
structure ProcHandle where
  pid : Nat
  exited : Bool
deriving DecidableEq

/-- Is an optional handle a live process: present and not exited. -/
def procIsAlive : Option ProcHandle → Bool
  | some p => !p.exited
  | none => false

/-- The PersistentShell object state. -/
structure Shell where
  device_serial : String
  async_process : Option ProcHandle
  output_queue : List String
  async_alive : Bool
  reader_running : Bool
deriving DecidableEq

/-- _start_async_session (lines 255-273): try to spawn adb shell;
on success store the new handle and set the flag, on failure clear
both.  The spawn result is environment data.  The reader thread and
the queue are untouched. -/
def start_async_session (sh : Shell) (spawn : Option ProcHandle) : Shell :=
  match spawn with
  | some p => { sh with async_process := some p, async_alive := true }
  | none => { sh with async_process := none, async_alive := false }

/-- _poll_async_output (lines 275-290): return at once when the
session is not alive or has no process, otherwise start the
background reader thread. -/
def poll_async_output (sh : Shell) : Shell :=
  if sh.async_alive && sh.async_process.isSome then
    { sh with reader_running := true }
  else sh

/-- The constructor (lines 247-253): empty queue, no process, dead
flag, then _start_async_session followed by _poll_async_output. -/
def init_shell (serial : String) (spawn : Option ProcHandle) : Shell :=
  poll_async_output
    (start_async_session
      { device_serial := serial
        async_process := none
        output_queue := []
        async_alive := false
        reader_running := false }
      spawn)

/-- The liveness check at the head of execute_async (line 337):
not alive, or no process, or poll() reports an exit. -/
def needs_respawn (sh : Shell) : Bool :=
  !sh.async_alive || sh.async_process.isNone || !procIsAlive sh.async_process

/-- execute_async (lines 335-347).  Besides the successor state it
returns whether the write succeeded and how many respawn attempts
(calls of _start_async_session) the call made.  The spawn result of
a respawn and the success of the write are environment data.  A
failed write sets the liveness flag to false; no path starts a
reader thread. -/
def execute_async (sh : Shell) (command : String) (spawn : Option ProcHandle)
    (writeOk : Bool) : Shell × Bool × Nat :=
  if needs_respawn sh then
    let sh1 := start_async_session sh spawn
    if !sh1.async_alive then (sh1, false, 1)
    else if writeOk then (sh1, true, 1)
    else ({ sh1 with async_alive := false }, false, 1)
  else if writeOk then (sh, true, 0)
  else ({ sh with async_alive := false }, false, 0)

/-- get_async_output_line (lines 349-354): non-blocking pop of the
front of the output queue. -/
def get_async_output_line (sh : Shell) : Option String × Shell :=
  match sh.output_queue with
  | [] => (none, sh)
  | l :: rest => (some l, { sh with output_queue := rest })

/-- close (lines 356-363): clear the liveness flag, terminate the
process best-effort and release the handle. -/
def close_shell (sh : Shell) : Shell :=
  { sh with async_alive := false, async_process := none }

/-- A freshly spawned process has not already exited. -/
def spawnWF : Option ProcHandle → Bool
  | some p => !p.exited
  | none => true

/-- The events of the session transition system: a public
execute_async call (with the environment choices it consumes), a
close call, one step of the background reader thread (reading a line
the process emitted, or observing death and terminating), a
spontaneous exit of the subprocess, and a get_async_output_line
call. -/
inductive ShellEvent where
  | execAsync (command : String) (spawn : Option ProcHandle) (writeOk : Bool)
  | close
  | readerRead (line : String)
  | readerStop
  | procExit
  | pollLine
deriving DecidableEq

/-- One step of the transition system; none when the event is not
enabled in the given state.  The reader thread can append a line only
while it is running, the flag is set and the current process is
alive (the reader closure rereads self.async_process on every
iteration); it terminates - also clearing the liveness flag, as the
code does after its loop - once the flag is down or the process it
sees is gone or exited.  Respawned processes start un-exited. -/
def applyEvent (sh : Shell) : ShellEvent → Option Shell
  | .execAsync c spawn w =>
    if spawnWF spawn then some (execute_async sh c spawn w).1 else none
  | .close => some (close_shell sh)
  | .readerRead line =>
    if sh.reader_running && sh.async_alive && procIsAlive sh.async_process then
      some { sh with output_queue := sh.output_queue ++ [line] }
    else none
  | .readerStop =>
    if sh.reader_running && (!sh.async_alive || !procIsAlive sh.async_process) then
      some { sh with reader_running := false, async_alive := false }
    else none
  | .procExit =>
    match sh.async_process with
    | some p =>
      if p.exited then none
      else some { sh with async_process := some { p with exited := true } }
    | none => none
  | .pollLine => some (get_async_output_line sh).2

/-- The states a session can be in: a constructor call followed by
any sequence of enabled events. -/
inductive ShellReachable : Shell → Prop
  | init (serial : String) (spawn : Option ProcHandle)
      (h : spawnWF spawn = true) : ShellReachable (init_shell serial spawn)
  | step {s s' : Shell} (e : ShellEvent) :
      ShellReachable s → applyEvent s e = some s' → ShellReachable s'

/-- Reachability from a given state by any sequence of enabled
events. -/
inductive ReachFrom (s : Shell) : Shell → Prop
  | refl : ReachFrom s s
  | step {t t' : Shell} (e : ShellEvent) :
      ReachFrom s t → applyEvent t e = some t' → ReachFrom s t'

/-- Has the handle held before a step been replaced after it: the
process slot now holds a different pid or nothing. -/
def handle_replaced (p : ProcHandle) (s' : Shell) : Bool :=
  match s'.async_process with
  | some q => q.pid != p.pid
  | none => true

/-! ## Concrete handles, states and environments used by witnesses and
counterexamples -/

/-- The handle of the interactive process spawned at construction. -/
def pHandle1 : ProcHandle := ⟨1, false⟩

/-- The handle of a process spawned by a later respawn. -/
def pHandle2 : ProcHandle := ⟨2, false⟩

/-- A session right after a successful construction. -/
def shellS0 : Shell := init_shell "dev" (some pHandle1)

/-- The session after its interactive process has exited and the
reader thread has observed this and terminated. -/
def shellS2 : Shell := ⟨"dev", some ⟨1, true⟩, [], false, false⟩

/-- The session after a subsequent execute_async call respawned the
interactive process: alive again, but with no reader thread. -/
def shellStar : Shell := ⟨"dev", some pHandle2, [], true, false⟩

/-- The session after a write failure inside execute_async cleared
the liveness flag while the first process kept running. -/
def shellB : Shell := ⟨"dev", some pHandle1, [], false, true⟩

/-- The session after the next execute_async call respawned over the
still-running first process. -/
def shellC : Shell := ⟨"dev", some pHandle2, [], true, true⟩

/-- Environment for the tier-1 success witness: exec-out completes
with exit status zero and empty stdout, anything else would answer
differently. -/
def envC1 : List String → Nat → RunOutcome := fun args _ =>
  if args = exec_out_cmd "serialA" "ls" then RunOutcome.completed "" "warn" 0
  else RunOutcome.completed "tier2" "e2" 0

/-- Environment for the fallback witness: exec-out exits non-zero and
the shell tier times out. -/
def envC2 : List String → Nat → RunOutcome := fun args _ =>
  if args = exec_out_cmd "sB" "du" then RunOutcome.completed "junk" "boom" 1
  else RunOutcome.timedOut

/-- Environment for the connect witness: the connect call exits zero
but its response text carries no confirmation marker. -/
def envC9 : List String → CallBehavior := fun _ =>
  ⟨1, "unable to connect to 1.2.3.4:5555", "", 0, false⟩

/-- Repeatedly pop the output queue through get_async_output_line,
collecting the returned lines; the fuel bounds the number of polls. -/
def shellDrain : Nat → Shell → List String
  | 0, _ => []
  | n + 1, sh =>
    match get_async_output_line sh with
    | (some l, sh') => l :: shellDrain n sh'
    | (none, _) => []

/-! ## Helper lemmas -/

/-- The escaped-space replacement maps a non-empty name to a
non-empty name. -/
theorem replaceEscSpace_ne_nil (l : List Char) (h : l ≠ []) : replaceEscSpace l ≠ [] := by
  match l with
  | [] => exact absurd rfl h
  | [c] => simp [replaceEscSpace]
  | c1 :: c2 :: rest =>
    simp only [replaceEscSpace]
    split <;> simp

/-- The escaped-space replacement never introduces a trailing slash. -/
theorem replaceEscSpace_getLast (l : List Char) (h : l.getLast? ≠ some '/') :
    (replaceEscSpace l).getLast? ≠ some '/' := by
  induction l using replaceEscSpace.induct with
  | case1 => simp [replaceEscSpace]
  | case2 c => simpa [replaceEscSpace] using h
  | case3 c1 c2 rest hpair ih =>
    obtain ⟨h1, h2⟩ := hpair
    subst h1; subst h2
    have hstep : replaceEscSpace ('\\' :: ' ' :: rest) = ' ' :: replaceEscSpace rest := by
      simp [replaceEscSpace]
    rw [hstep]
    match rest, ih, h with
    | [], _, _ => simp [replaceEscSpace]
    | d :: ds, ih, h =>
      have hr : (d :: ds).getLast? ≠ some '/' := by
        rwa [List.getLast?_cons_cons, List.getLast?_cons_cons] at h
      have hrec := ih hr
      have h3 := replaceEscSpace_ne_nil (d :: ds) (by simp)
      obtain ⟨e, es, heq⟩ := List.exists_cons_of_ne_nil h3
      rw [heq] at hrec ⊢
      rwa [List.getLast?_cons_cons]
  | case4 c1 c2 rest hpair ih =>
    have hstep : replaceEscSpace (c1 :: c2 :: rest) = c1 :: replaceEscSpace (c2 :: rest) := by
      rw [replaceEscSpace, if_neg hpair]
    rw [hstep]
    have hr : (c2 :: rest).getLast? ≠ some '/' := by
      rwa [List.getLast?_cons_cons] at h
    have hrec := ih hr
    have h3 := replaceEscSpace_ne_nil (c2 :: rest) (by simp)
    obtain ⟨e, es, heq⟩ := List.exists_cons_of_ne_nil h3
    rw [heq] at hrec ⊢
    rwa [List.getLast?_cons_cons]

/-- Dropping leading slashes of a list whose head is not a slash does
nothing. -/
theorem dropWhileSlash_of_head (m : List Char) (h : m.head? ≠ some '/') :
    List.dropWhile (fun c => c == '/') m = m := by
  match m with
  | [] => rfl
  | a :: t =>
    have ha : a ≠ '/' := by
      intro hc; exact h (by simp [hc])
    simp [List.dropWhile_cons, ha]

/-- rstrip of slashes does nothing to a name without a trailing
slash. -/
theorem rstripSlash_of_no_slash (l : List Char) (h : l.getLast? ≠ some '/') :
    rstripSlash l = l := by
  unfold rstripSlash
  rw [dropWhileSlash_of_head _ (by rwa [List.head?_reverse]), List.reverse_reverse]

/-- rstrip of slashes removes exactly the single trailing slash of a
name whose stem has none. -/
theorem rstripSlash_concat (base : List Char) (h : base.getLast? ≠ some '/') :
    rstripSlash (base ++ ['/']) = base := by
  unfold rstripSlash
  rw [List.reverse_append]
  simp only [List.reverse_cons, List.reverse_nil, List.nil_append, List.singleton_append]
  rw [List.dropWhile_cons]
  simp only [beq_self_eq_true, if_true]
  rw [dropWhileSlash_of_head _ (by rwa [List.head?_reverse]), List.reverse_reverse]

/-- After rstrip of slashes no trailing slash remains. -/
theorem rstripSlash_getLast (l : List Char) : (rstripSlash l).getLast? ≠ some '/' := by
  unfold rstripSlash
  rw [List.getLast?_reverse]
  intro hc
  have := List.head?_dropWhile_not (fun c => c == '/') l.reverse
  rw [hc] at this
  simp at this

/-- The trailing-slash test agrees with getLast?. -/
theorem endsWithSlash_iff (l : List Char) : endsWithSlash l = true ↔ l.getLast? = some '/' := by
  unfold endsWithSlash
  match h : l.getLast? with
  | none => simp
  | some c => simp

/-- queue.Queue.put folded over a list appends the list in order. -/
theorem foldl_queue_put (q ls : List String) :
    List.foldl queue_put q ls = q ++ ls := by
  induction ls generalizing q with
  | nil => simp
  | cons x r ih => simp [queue_put, ih]

/-- Draining a session whose queue holds q yields exactly q. -/
theorem shellDrain_spec (q : List String) (sh : Shell) (h : sh.output_queue = q) :
    shellDrain q.length sh = q := by
  induction q generalizing sh with
  | nil => rfl
  | cons x r ih =>
    simp only [List.length_cons, shellDrain, get_async_output_line, h]
    exact congrArg (x :: ·) (ih _ rfl)

/-- The state shellS0 is the result of a successful construction. -/
theorem shellS0_reachable : ShellReachable shellS0 :=
  ShellReachable.init "dev" (some pHandle1) rfl

/-- The respawned-without-reader state is reachable: the initial
process exits, the reader thread observes this and stops, and the
next execute_async call respawns successfully. -/
theorem shellStar_reachable : ShellReachable shellStar :=
  ShellReachable.step (ShellEvent.execAsync "echo hi" (some pHandle2) true)
    (ShellReachable.step ShellEvent.readerStop
      (ShellReachable.step ShellEvent.procExit shellS0_reachable rfl) rfl) rfl

/-- The dead-flag-with-live-process state is reachable: a write
failure inside execute_async clears the liveness flag while the
process keeps running. -/
theorem shellB_reachable : ShellReachable shellB :=
  ShellReachable.step (ShellEvent.execAsync "x" none false) shellS0_reachable rfl

/-- execute_async never touches the reader thread or the output
queue. -/
theorem execute_async_fields (sh : Shell) (c : String) (spawn : Option ProcHandle)
    (w : Bool) :
    ((execute_async sh c spawn w).1).reader_running = sh.reader_running
    ∧ ((execute_async sh c spawn w).1).output_queue = sh.output_queue := by
  cases spawn <;>
    simp only [execute_async, start_async_session] <;>
    split_ifs <;> simp

/-- Once the reader thread is gone and the queue is empty, no event
can restart the reader or put a line on the queue. -/
theorem queue_frozen (s s' : Shell) (e : ShellEvent) (h : applyEvent s e = some s')
    (hr : s.reader_running = false) (hq : s.output_queue = []) :
    s'.reader_running = false ∧ s'.output_queue = [] := by
  cases e with
  | execAsync c spawn w =>
    simp only [applyEvent] at h
    split at h
    case isFalse => cases h
    case isTrue hwf =>
      injection h with h
      have hf := execute_async_fields s c spawn w
      rw [h] at hf
      exact ⟨hf.1.trans hr, hf.2.trans hq⟩
  | close =>
    injection h with h
    rw [← h]
    exact ⟨hr, hq⟩
  | readerRead line =>
    exfalso
    simp only [applyEvent] at h
    split at h
    case isFalse => cases h
    case isTrue hg =>
      rw [hr] at hg
      simp at hg
  | readerStop =>
    exfalso
    simp only [applyEvent] at h
    split at h
    case isFalse => cases h
    case isTrue hg =>
      rw [hr] at hg
      simp at hg
  | procExit =>
    simp only [applyEvent] at h
    split at h
    · split at h
      · cases h
      · injection h with h
        rw [← h]
        exact ⟨hr, hq⟩
    · cases h
  | pollLine =>
    simp only [applyEvent] at h
    injection h with h
    rw [← h]
    unfold get_async_output_line
    rw [hq]
    exact ⟨hr, hq⟩

/-- The frozen reader and empty queue persist along every event
sequence. -/
theorem queue_frozen_reach (s t : Shell) (h : ReachFrom s t)
    (hr : s.reader_running = false) (hq : s.output_queue = []) :
    t.reader_running = false ∧ t.output_queue = [] := by
  induction h with
  | refl => exact ⟨hr, hq⟩
  | step e hst happ ih => exact queue_frozen _ _ e happ ih.1 ih.2

/-! ## Claim theorems -/

/-- Claim C1: whenever the tier-1 (adb exec-out) invocation inside
execute_sync completes with exit status zero, execute_sync returns
exactly that invocation's (stdout, stderr) pair - also when stdout is
the empty string, since out ranges over all strings - and the tier-2
(adb shell) path is not invoked at all. -/
theorem execute_sync_tier1_zero_exit (env : List String → Nat → RunOutcome)
    (serial command : String) (timeout : Nat) (out err : String)
    (h : env (exec_out_cmd serial command) timeout = RunOutcome.completed out err 0) :
    execute_sync env serial command timeout = ((out, err), false) := by
  unfold execute_sync
  rw [h]
  rfl

/-- Witness for C1 at a concrete environment whose exec-out call
exits zero with empty stdout. -/
theorem execute_sync_tier1_zero_exit_witness :
    execute_sync envC1 "serialA" "ls" 15 = (("", "warn"), false) :=
  execute_sync_tier1_zero_exit envC1 "serialA" "ls" 15 "" "warn" rfl

/-- Claim C2: when the tier-1 exec-out invocation exits non-zero,
times out or raises, execute_sync issues the identical command string
through the tier-2 adb shell path with the same timeout budget and
returns exactly the tier-2 result - run_shell_tier depends only on
the shell invocation, so no tier-1 fragment can appear in it - and a
tier-2 timeout yields empty stdout with the explicit timeout
message. -/
theorem execute_sync_fallback_tier2 (env : List String → Nat → RunOutcome)
    (serial command : String) (timeout : Nat)
    (h : tier1_falls_through (env (exec_out_cmd serial command) timeout) = true) :
    execute_sync env serial command timeout
      = (run_shell_tier env serial command timeout, true)
    ∧ (env (shell_sync_cmd serial command) timeout = RunOutcome.timedOut →
        run_shell_tier env serial command timeout = ("", timeoutMsg timeout)) := by
  constructor
  · unfold execute_sync
    cases ho : env (exec_out_cmd serial command) timeout with
    | completed out err rc =>
      rw [ho] at h
      simp only [tier1_falls_through, bne_iff_ne] at h
      simp [h]
    | timedOut => rfl
    | failed m => rfl
  · intro ht
    unfold run_shell_tier
    rw [ht]

/-- Witness for C2 at a concrete environment whose exec-out exits
with status 1 and whose shell call times out. -/
theorem execute_sync_fallback_tier2_witness :
    execute_sync envC2 "sB" "du" 7 = (("", "命令执行超时（7秒）"), true) := by
  have h := execute_sync_fallback_tier2 envC2 "sB" "du" 7 rfl
  rw [h.1, h.2 rfl]
  rfl

/-- Claim C3: on a session whose liveness check fails - which is in
particular the case after close(), as the second conjunct states -
execute_async makes exactly one respawn attempt; when that attempt
also fails (spawn result none) it returns false, makes no further
attempt, and the embedding is a total function, so nothing is
thrown. -/
theorem execute_async_dead_single_respawn (sh : Shell) (command : String)
    (writeOk : Bool) (h : needs_respawn sh = true) :
    execute_async sh command none writeOk
      = ({ sh with async_process := none, async_alive := false }, false, 1)
    ∧ needs_respawn (close_shell sh) = true := by
  constructor
  · unfold execute_async
    rw [if_pos h]
    simp [start_async_session]
  · simp [needs_respawn, close_shell]

/-- Witness for C3: execute_async on a closed session with a failing
respawn returns false after exactly one attempt. -/
theorem execute_async_dead_single_respawn_witness :
    execute_async (close_shell (init_shell "dev" (some pHandle1))) "ls" none true
      = (close_shell (init_shell "dev" (some pHandle1)), false, 1)
    ∧ needs_respawn (close_shell (close_shell (init_shell "dev" (some pHandle1)))) = true :=
  execute_async_dead_single_respawn (close_shell (init_shell "dev" (some pHandle1)))
    "ls" true rfl

/-- Claim C4, counterexample: the claim that every handle replacement
on a reachable state either is a close (which terminates the prior
handle) or abandons a handle that has already exited is false: after
a write failure clears the liveness flag while the process is still
running (state shellB), the next execute_async call respawns and
replaces the un-exited handle without terminating it. -/
theorem replace_handle_claim_counterexample :
    ¬ (∀ (s : Shell) (e : ShellEvent) (s' : Shell) (p : ProcHandle),
        ShellReachable s → applyEvent s e = some s' → s.async_process = some p →
        handle_replaced p s' = true → e = ShellEvent.close ∨ p.exited = true) := by
  intro hall
  have h := hall shellB (ShellEvent.execAsync "y" (some pHandle2) true) shellC pHandle1
    shellB_reachable rfl rfl rfl
  rcases h with h | h
  · cases h
  · exact absurd h (by decide)

/-- Claim C4, amended: the session state holds at most one subprocess
handle by construction, and every step that replaces the handle on a
reachable state either is a close call (which terminates the prior
process), or abandons a handle that has already exited, or happens
while the session has already marked itself dead (liveness flag
false) - the one weakening the counterexample forces. -/
theorem replace_handle_amended (s : Shell) (e : ShellEvent) (s' : Shell)
    (p : ProcHandle) (hre : ShellReachable s) (h : applyEvent s e = some s')
    (hp : s.async_process = some p) (hrep : handle_replaced p s' = true) :
    e = ShellEvent.close ∨ p.exited = true ∨ s.async_alive = false := by
  cases e with
  | close => exact Or.inl rfl
  | execAsync c spawn w =>
    right
    simp only [applyEvent] at h
    split at h
    case isFalse => cases h
    case isTrue hwf =>
      injection h with h
      by_cases hnr : needs_respawn s = true
      · unfold needs_respawn at hnr
        rw [hp] at hnr
        simp [procIsAlive] at hnr
        tauto
      · exfalso
        rw [Bool.not_eq_true] at hnr
        simp only [execute_async, hnr, Bool.false_eq_true, if_false] at h
        have hproc : s'.async_process = some p := by
          split at h <;> rw [← h] <;> simpa using hp
        rw [handle_replaced, hproc] at hrep
        simp at hrep
  | readerRead line =>
    exfalso
    simp only [applyEvent] at h
    split at h
    case isFalse => cases h
    case isTrue hg =>
      injection h with h
      have hproc : s'.async_process = some p := by rw [← h]; simpa using hp
      rw [handle_replaced, hproc] at hrep
      simp at hrep
  | readerStop =>
    exfalso
    simp only [applyEvent] at h
    split at h
    case isFalse => cases h
    case isTrue hg =>
      injection h with h
      have hproc : s'.async_process = some p := by rw [← h]; simpa using hp
      rw [handle_replaced, hproc] at hrep
      simp at hrep
  | procExit =>
    simp only [applyEvent, hp] at h
    by_cases hpe : p.exited = true
    · exact Or.inr (Or.inl hpe)
    · exfalso
      rw [Bool.not_eq_true] at hpe
      simp only [hpe, Bool.false_eq_true, if_false] at h
      injection h with h
      have hproc : s'.async_process = some ⟨p.pid, true⟩ := by rw [← h]
      rw [handle_replaced, hproc] at hrep
      simp at hrep
  | pollLine =>
    exfalso
    simp only [applyEvent] at h
    injection h with h
    have hproc : s'.async_process = some p := by
      rw [← h]
      unfold get_async_output_line
      cases hq : s.output_queue <;> simpa using hp
    rw [handle_replaced, hproc] at hrep
    simp at hrep

/-- Witness for the amended C4 at a concrete reachable state and
step: the respawn over the dead-flagged state shellB is covered by
the liveness-flag disjunct. -/
theorem replace_handle_amended_witness :
    ShellEvent.execAsync "y" (some pHandle2) true = ShellEvent.close
    ∨ pHandle1.exited = true ∨ shellB.async_alive = false :=
  replace_handle_amended shellB (ShellEvent.execAsync "y" (some pHandle2) true)
    shellC pHandle1 shellB_reachable rfl rfl rfl

/-- Claim C5: the claim fails on the code.  The state shellStar - a
session whose respawned interactive process is alive while no reader
thread is running, because execute_async never calls
_poll_async_output - is reachable, and from it every event sequence
keeps the queue empty: the respawned process's output lines are never
appended, and get_async_output_line returns none forever. -/
theorem respawned_process_lines_never_queued :
    ShellReachable shellStar
    ∧ shellStar.async_alive = true
    ∧ procIsAlive shellStar.async_process = true
    ∧ shellStar.reader_running = false
    ∧ ∀ t : Shell, ReachFrom shellStar t → (get_async_output_line t).1 = none := by
  refine ⟨shellStar_reachable, rfl, rfl, rfl, ?_⟩
  intro t ht
  have h := queue_frozen_reach shellStar t ht rfl rfl
  unfold get_async_output_line
  rw [h.2]

/-- Witness instance of the C5 theorem: polling the respawned session
itself yields nothing. -/
theorem respawned_process_lines_never_queued_witness :
    (get_async_output_line shellStar).1 = none :=
  respawned_process_lines_never_queued.2.2.2.2 shellStar ReachFrom.refl

/-- Claim C6: lines put on the output queue in order are drained by
successive get_async_output_line calls in exactly that order - the
drain returns the pushed list itself, so nothing is delivered twice -
and a poll on an empty queue returns none at once with the state
unchanged. -/
theorem output_queue_fifo (lines : List String) (sh : Shell)
    (h : sh.output_queue = []) :
    List.foldl queue_put sh.output_queue lines = lines
    ∧ shellDrain lines.length
        { sh with output_queue := List.foldl queue_put sh.output_queue lines } = lines
    ∧ get_async_output_line sh = (none, sh) := by
  refine ⟨by rw [h, foldl_queue_put, List.nil_append], ?_, ?_⟩
  · exact shellDrain_spec lines _ (by rw [h, foldl_queue_put, List.nil_append])
  · unfold get_async_output_line
    rw [h]

/-- Witness for C6 with two concrete lines. -/
theorem output_queue_fifo_witness :
    List.foldl queue_put (Shell.mk "dev" none [] false false).output_queue ["a", "b"]
      = ["a", "b"]
    ∧ shellDrain 2 (Shell.mk "dev" none ["a", "b"] false false) = ["a", "b"]
    ∧ get_async_output_line (Shell.mk "dev" none [] false false)
      = (none, Shell.mk "dev" none [] false false) :=
  output_queue_fifo ["a", "b"] (Shell.mk "dev" none [] false false) rfl

/-- Claim C7: a well-formed raw name consisting of a stem with no
trailing slash followed by a single slash unescapes to the stem with
every escaped space replaced by a plain space and the trailing slash
preserved; a raw name without a trailing slash unescapes to a name
without one; the empty input is returned unchanged. -/
theorem unescape_ls_filename_spec (base name : List Char)
    (hb : base.getLast? ≠ some '/') (hn : name.getLast? ≠ some '/') :
    unescape_ls_filename (base ++ ['/']) = replaceEscSpace base ++ ['/']
    ∧ (unescape_ls_filename name).getLast? ≠ some '/'
    ∧ unescape_ls_filename ([] : List Char) = [] := by
  refine ⟨?_, ?_, rfl⟩
  · have he : endsWithSlash (base ++ ['/']) = true := by
      rw [endsWithSlash_iff, List.getLast?_concat]
    simp only [unescape_ls_filename, if_neg (by simp : ¬(base ++ ['/'] = [])), he,
      rstripSlash_concat base hb, if_true]
  · by_cases hnil : name = []
    · subst hnil; simp [unescape_ls_filename]
    · have he : endsWithSlash name = false := by
        rw [← Bool.not_eq_true, endsWithSlash_iff]; exact hn
      simp only [unescape_ls_filename, if_neg hnil, he, Bool.false_eq_true, if_false]
      rw [rstripSlash_of_no_slash name hn]
      exact replaceEscSpace_getLast name hn

/-- Witness for C7: the escaped directory name My(escaped space)Folder
with a trailing slash unescapes to My Folder with the slash kept. -/
theorem unescape_ls_filename_spec_witness :
    unescape_ls_filename (['M', 'y', '\\', ' ', 'F', 'o', 'l', 'd', 'e', 'r'] ++ ['/'])
      = ['M', 'y', ' ', 'F', 'o', 'l', 'd', 'e', 'r', '/'] :=
  (unescape_ls_filename_spec ['M', 'y', '\\', ' ', 'F', 'o', 'l', 'd', 'e', 'r']
    ['r'] (by decide) (by decide)).1

/-- Claim C10: a non-empty raw name ending in one or more slashes is
unescaped by first stripping all trailing slashes and then
reattaching exactly one, so the result ends in exactly one slash: its
last character is a slash and the character before it is not. -/
theorem unescape_trailing_slashes_normalized (name : List Char) (h0 : name ≠ [])
    (h : name.getLast? = some '/') :
    unescape_ls_filename name = replaceEscSpace (rstripSlash name) ++ ['/']
    ∧ (unescape_ls_filename name).getLast? = some '/'
    ∧ (unescape_ls_filename name).dropLast.getLast? ≠ some '/' := by
  have he : endsWithSlash name = true := (endsWithSlash_iff name).2 h
  have h1 : unescape_ls_filename name = replaceEscSpace (rstripSlash name) ++ ['/'] := by
    simp only [unescape_ls_filename, if_neg h0, he, if_true]
  refine ⟨h1, ?_, ?_⟩
  · rw [h1, List.getLast?_concat]
  · rw [h1, List.dropLast_concat]
    exact replaceEscSpace_getLast _ (rstripSlash_getLast name)

/-- Witness for C10: docs with two trailing slashes normalizes to
docs with one. -/
theorem unescape_trailing_slashes_normalized_witness :
    unescape_ls_filename ['d', 'o', 'c', 's', '/', '/'] = ['d', 'o', 'c', 's', '/'] :=
  (unescape_trailing_slashes_normalized ['d', 'o', 'c', 's', '/', '/']
    (by decide) (by decide)).1

/-- Claim C8, counterexample: execute_command enforces no timeout.
There is no bound t such that every call whose duration exceeds t
comes back without its captured output: for any t, a call of duration
t+1 still returns its full stdout, so no invocation ever yields a
timed-out result carrying no partial output. -/
theorem execute_command_no_timeout_counterexample :
    ¬ ∃ t : Nat, ∀ b : CallBehavior, b.binaryMissing = false → b.duration > t →
      (execute_command (fun _ => b) (CmdArg.str "version") none).1 = "" := by
  rintro ⟨t, hall⟩
  have h := hall ⟨t + 1, "partial", "", 0, false⟩ rfl (Nat.lt_succ_self t)
  simp [execute_command] at h

/-- Claim C8, amended: execute_command takes no timeout and never
signals a timed-out result - the call's duration does not influence
the result at all, and a completed call returns its captured
(stdout, stderr, exit status) unchanged - while a missing adb binary
is the one distinguished failure kind, signalled as empty output, a
fixed not-found message and exit code -1. -/
theorem execute_command_no_timeout_amended (cmd : CmdArg) (device : Option String)
    (b : CallBehavior) (d : Nat) (h : b.binaryMissing = false) :
    execute_command (fun _ => { b with duration := d }) cmd device
      = (b.stdout, b.stderr, b.returncode)
    ∧ execute_command (fun _ => (⟨d, "", "", 0, true⟩ : CallBehavior)) cmd device
      = ("", adb_missing_msg, -1) := by
  constructor
  · simp [execute_command, h]
  · simp [execute_command]

/-- Witness for the amended C8 at a long-running concrete call. -/
theorem execute_command_no_timeout_amended_witness :
    execute_command (fun _ => (⟨1000000, "out", "err", 3, false⟩ : CallBehavior))
      (CmdArg.str "version") none = ("out", "err", 3)
    ∧ execute_command (fun _ => (⟨1000000, "", "", 0, true⟩ : CallBehavior))
      (CmdArg.str "version") none = ("", adb_missing_msg, -1) :=
  execute_command_no_timeout_amended (CmdArg.str "version") none
    ⟨0, "out", "err", 3, false⟩ 1000000 rfl

/-- Claim C9: for a non-empty address the connect handler reports
success exactly when the network-connect command's exit status is
zero and its lower-cased response text contains the confirmation
marker; a zero exit whose text lacks the marker is reported as
failure. -/
theorem do_connect_success_iff (env : List String → CallBehavior) (ip_port : String)
    (h : ip_port ≠ "") :
    (do_connect env ip_port).map Prod.fst
      = some ((connect_device env ip_port).2.2 == 0
          && containsSub connected_marker (lower_chars (connect_device env ip_port).1)) := by
  unfold do_connect
  rw [if_neg h]
  by_cases hc : ((connect_device env ip_port).2.2 == 0
      && containsSub connected_marker (lower_chars (connect_device env ip_port).1)) = true
  · rw [if_pos hc, hc]; rfl
  · rw [if_neg hc]
    rw [Bool.not_eq_true] at hc
    rw [hc]
    rfl

/-- Witness for C9: a zero-exit connect whose response text lacks the
marker is reported as failure. -/
theorem do_connect_success_iff_witness :
    (do_connect envC9 "1.2.3.4:5555").map Prod.fst = some false := by
  have h := do_connect_success_iff envC9 "1.2.3.4:5555" (by decide)
  rw [h]
  decide
